import Mathlib

/-!
# Verification of pg_squeeze (src/pg_squeeze.c) against its specification

A shallow embedding of the parts of `src/pg_squeeze.c` that the claims talk
about.  Machine integers (OIDs, transaction ids, multixact ids) are modelled
as `Nat`, with explicit `% 2^32` arithmetic where the C code relies on
32-bit wraparound (`TransactionIdPrecedes`).  Fallible C code (`ereport`,
`elog(ERROR)`) is modelled with `Except`.  Catalog scans, which read shared
database state, are modelled by passing the values the scan would return as
explicit inputs.
-/

namespace PgSqueeze

/-- PostgreSQL lock modes, ordered by strength (`storage/lockdefs.h`).
`accessExclusive` is the strongest lock. -/
inductive LockMode where
  | noLock
  | accessShare
  | rowShare
  | rowExclusive
  | shareUpdateExclusive
  | share
  | shareRowExclusive
  | exclusive
  | accessExclusive
deriving DecidableEq, Repr

/-- The error conditions `pg_squeeze.c` raises via `ereport` / `elog`,
identified by their error code and (where one code is reused) message. -/
inductive SqueezeError where
  | nullValueNotAllowed
  | wrongObjectType (msg : String)
  | objectNotInPrerequisiteState
  | uniqueViolation (msg : String)
  | insufficientPrivilege
  | duplicateObject
  | datatypeMismatch (msg : String)
  | invalidParameterValue (msg : String)
  | undefinedObject (msg : String)
  | undefinedTable
  | objectInUse (msg : String)
  | internalError (msg : String)
  | assertionFailed
deriving DecidableEq, Repr

instance {ε α : Type} [DecidableEq ε] [DecidableEq α] :
    DecidableEq (Except ε α) := fun x y =>
  match x, y with
  | .error a, .error b =>
    if h : a = b then .isTrue (congrArg Except.error h)
    else .isFalse (fun hc => h (Except.error.inj hc))
  | .ok a, .ok b =>
    if h : a = b then .isTrue (congrArg Except.ok h)
    else .isFalse (fun hc => h (Except.ok.inj hc))
  | .error _, .ok _ => .isFalse (fun hc => Except.noConfusion hc)
  | .ok _, .error _ => .isFalse (fun hc => Except.noConfusion hc)

/-- `InvalidOid` (0). -/
def InvalidOid : Nat := 0

/-- `OidIsValid`. -/
def OidIsValid (oid : Nat) : Bool := oid ≠ InvalidOid

/-! ## Transaction-id arithmetic (`access/transam.h`, `access/multixact.c`)

Transaction ids are unsigned 32-bit counters; comparison is modular
("circular xid" arithmetic): `TransactionIdPrecedes(id1, id2)` computes
`(int32) (id1 - id2) < 0` for normal xids. -/

/-- `FirstNormalTransactionId` (3). -/
def FirstNormalTransactionId : Nat := 3

/-- `TransactionIdIsNormal`. -/
def TransactionIdIsNormal (xid : Nat) : Bool := FirstNormalTransactionId ≤ xid

/-- `TransactionIdPrecedes` for 32-bit xids: special (non-normal) ids compare
by unsigned value, normal ids by the sign of the 32-bit difference. -/
def TransactionIdPrecedes (id1 id2 : Nat) : Bool :=
  if TransactionIdIsNormal id1 = false ∨ TransactionIdIsNormal id2 = false then
    decide (id1 < id2)
  else
    decide (2 ^ 31 ≤ (id1 % 2 ^ 32 + 2 ^ 32 - id2 % 2 ^ 32) % 2 ^ 32)

/-- `MultiXactIdIsValid`: any non-zero multixact id is valid. -/
def MultiXactIdIsValid (multi : Nat) : Bool := multi ≠ 0

/-- `MultiXactIdPrecedes`: sign of the 32-bit difference. -/
def MultiXactIdPrecedes (multi1 multi2 : Nat) : Bool :=
  decide (multi1 % 2 ^ 32 ≠ multi2 % 2 ^ 32) &&
  decide (2 ^ 31 ≤ (multi1 % 2 ^ 32 + 2 ^ 32 - multi2 % 2 ^ 32) % 2 ^ 32)

/-! ## Free-space helper (`get_heap_freespace`, src/pg_squeeze.c:2768-2815)

Inputs: the number of heap blocks (`RelationGetNumberOfBlocks`), the
free-space-map reading for each block (`GetRecordedFreeSpace`), and whether
the FSM fork exists on disk (`smgrexists(..., FSM_FORKNUM)`). -/

/-- `BLCKSZ`, the standard PostgreSQL block size. -/
def BLCKSZ : Nat := 8192

/-- The `free` accumulator of the block loop in `get_heap_freespace`. -/
def recordedFreeTotal (nblocks : Nat) (recordedFree : Nat → Nat) : Nat :=
  (List.range nblocks).foldl (fun s b => s + recordedFree b) 0

/-- `get_heap_freespace`: returns `none` (SQL NULL) for an empty heap, or
when the whole heap reports zero free space and the FSM fork is missing;
otherwise the ratio of recorded free space to total size. -/
def get_heap_freespace (nblocks : Nat) (recordedFree : Nat → Nat)
    (fsmExists : Bool) : Option ℚ :=
  if nblocks = 0 then none
  else
    let free := recordedFreeTotal nblocks recordedFree
    let total := nblocks * BLCKSZ
    if free = 0 ∧ fsmExists = false then none
    else some ((free : ℚ) / (total : ℚ))

/-! ## Catalog fingerprint (`CatalogState`, `check_catalog_changes`,
src/pg_squeeze.c:1237-1427)

The fingerprint stores the `xmin` version tokens of the relevant catalog
rows.  A re-check re-reads the same rows with a fresh catalog snapshot; the
values that fresh read returns are the `CatalogRead` input here. -/

/-- One entry of `CatalogState.indexes` / the result of `get_index_info`:
per-index `pg_index` oid and xmin, plus the `pg_class` xmin, name and
tablespace of the index relation. -/
structure IndexCatInfo where
  oid : Nat
  xmin : Nat
  pg_class_xmin : Nat
  relname : String
  reltablespace : Nat
deriving DecidableEq, Repr

/-- `CatalogState` as captured by `get_catalog_state` at rebuild start. -/
structure CatalogState where
  relid : Nat
  pg_class_xmin : Nat
  /-- `form_class->reltoastrelid`; `InvalidOid` (0) when there is no TOAST
  relation. -/
  reltoastrelid : Nat
  toast_xmin : Nat
  /-- `pg_attribute` xmins of the user columns, ordered by `attnum`; the
  array has exactly `relnatts` entries. -/
  attr_xmins : List Nat
  indexes : List IndexCatInfo
  invalid_index : Bool
deriving DecidableEq, Repr

/-- What a fresh catalog read (`systable_beginscan` with the current
snapshot, `get_attribute_xmins`, `get_index_info`) returns at re-check
time. -/
structure CatalogRead where
  /-- the `pg_class` tuple of the source relation was found -/
  pg_class_exists : Bool
  pg_class_xmin : Nat
  /-- the `pg_class` tuple of the TOAST relation was found -/
  toast_exists : Bool
  toast_xmin : Nat
  attr_xmins : List Nat
  invalid_index : Bool
  indexes : List IndexCatInfo
deriving DecidableEq, Repr, Inhabited

/-- `check_pg_class_changes`: error if the relation disappeared, error if
the stored `pg_class` xmin differs from the current one. -/
def check_pg_class_changes (tupleExists : Bool) (cur_xmin stored_xmin : Nat) :
    Except SqueezeError Unit :=
  if tupleExists = false then .error .undefinedTable
  else if cur_xmin ≠ stored_xmin then
    .error (.objectInUse "Incompatible DDL or heap rewrite performed concurrently")
  else .ok ()

/-- `check_attribute_changes`: when `relnatts = 0` there is nothing to
compare (`attrs == NULL`); otherwise the C loop compares `attrs[i]` with
`attrs_new[i]` for every `i < relnatts`.  Both arrays hold exactly
`relnatts` entries (enforced by `get_attribute_xmins`), so the loop is
element-wise list equality. -/
def check_attribute_changes (attrs attrs_new : List Nat) :
    Except SqueezeError Unit :=
  if attrs.isEmpty then .ok ()
  else if attrs = attrs_new then .ok ()
  else .error (.objectInUse "Table definition changed concurrently")

/-- The pairwise comparison loop of `check_index_changes`: equal length and,
position by position, equal index oid, `pg_index` xmin and `pg_class`
xmin.  (Name and tablespace are not compared.) -/
def indexListMatch : List IndexCatInfo → List IndexCatInfo → Bool
  | [], [] => true
  | i :: is, j :: js =>
      decide (i.oid = j.oid) && decide (i.xmin = j.xmin) &&
      decide (i.pg_class_xmin = j.pg_class_xmin) && indexListMatch is js
  | _, _ => false

/-- `check_index_changes`: nothing to compare when no indexes were stored;
otherwise fail when the fresh read found an invalid index, the index count
changed, or any stored entry differs from the current one. -/
def check_index_changes (indexes inds_new : List IndexCatInfo)
    (invalid_index_new : Bool) : Except SqueezeError Unit :=
  if indexes.isEmpty then .ok ()
  else if invalid_index_new || !indexListMatch indexes inds_new then
    .error (.objectInUse "Concurrent change of index detected")
  else .ok ()

/-- `check_catalog_changes` (src/pg_squeeze.c:1237): under
`AccessExclusiveLock` the check is skipped entirely; under any other lock
the stored tokens are compared with a fresh catalog read: `pg_class` of the
relation, `pg_class` of the TOAST relation (when one exists),
the index set, and the attribute xmins, in this order. -/
def check_catalog_changes (state : CatalogState) (lock_held : LockMode)
    (cur : CatalogRead) : Except SqueezeError Unit :=
  if lock_held = .accessExclusive then .ok ()
  else
    match check_pg_class_changes cur.pg_class_exists cur.pg_class_xmin
        state.pg_class_xmin with
    | .error e => .error e
    | .ok _ =>
      match (if state.reltoastrelid ≠ InvalidOid then
               check_pg_class_changes cur.toast_exists cur.toast_xmin
                 state.toast_xmin
             else .ok ()) with
      | .error e => .error e
      | .ok _ =>
        match check_index_changes state.indexes cur.indexes
            cur.invalid_index with
        | .error e => .error e
        | .ok _ => check_attribute_changes state.attr_xmins cur.attr_xmins

/-- The spec-side "token-for-token equal" predicate: the relation still
exists and every stored version token matches the fresh read. -/
def catalogUnchanged (state : CatalogState) (cur : CatalogRead) : Prop :=
  cur.pg_class_exists = true ∧
  cur.pg_class_xmin = state.pg_class_xmin ∧
  (state.reltoastrelid ≠ InvalidOid →
    cur.toast_exists = true ∧ cur.toast_xmin = state.toast_xmin) ∧
  (state.indexes ≠ [] →
    cur.invalid_index = false ∧ indexListMatch state.indexes cur.indexes = true) ∧
  (state.attr_xmins ≠ [] → state.attr_xmins = cur.attr_xmins)

instance (state : CatalogState) (cur : CatalogRead) :
    Decidable (catalogUnchanged state cur) := by
  unfold catalogUnchanged; infer_instance

/-! ## Storage swap (`swap_relation_files`, src/pg_squeeze.c:2491-2651)

The function rewrites the two `pg_class` rows; we model a row by the fields
the function reads or writes.  `Assert` conditions become explicit guards
(`assertionFailed`), so a successful result means every assertion held. -/

/-- `RELKIND_INDEX`. -/
def RELKIND_INDEX : Char := 'i'

/-- The fields of a `pg_class` row that `swap_relation_files` touches. -/
structure PgClassRow where
  relfilenode : Nat
  reltablespace : Nat
  relpersistence : Char
  reltoastrelid : Nat
  relkind : Char
  relfrozenxid : Nat
  relminmxid : Nat
  relallvisible : Nat
deriving DecidableEq, Repr

/-- `swap_relation_files r1 r2 recentXmin oldestMulti`: `r1` is the row of
the relation that remains (the source's logical identity), `r2` the row of
the transient relation to be dropped; `recentXmin` is `RecentXmin` and
`oldestMulti` is `GetOldestMultiXactId()` at the time of the call.  Returns
the updated pair of rows.  Mirrors the source: swap of `relfilenode`,
`reltablespace` and `reltoastrelid`; for a non-index `r1`, set
`relfrozenxid := RecentXmin` and `relminmxid := GetOldestMultiXactId()`
(guarded by the source's `Assert`s); finally clear `relallvisible`. -/
def swap_relation_files (r1 r2 : PgClassRow) (recentXmin oldestMulti : Nat) :
    Except SqueezeError (PgClassRow × PgClassRow) :=
  if OidIsValid r1.relfilenode = false ∨ OidIsValid r2.relfilenode = false then
    .error (.internalError "cannot swap mapped relations")
  else
    let relform1 := { r1 with relfilenode := r2.relfilenode,
                              reltablespace := r2.reltablespace,
                              reltoastrelid := r2.reltoastrelid }
    let relform2 := { r2 with relfilenode := r1.relfilenode,
                              reltablespace := r1.reltablespace,
                              reltoastrelid := r1.reltoastrelid }
    -- the source compares relform1->relpersistence with itself; kept as written
    if relform1.relpersistence ≠ relform1.relpersistence then
      .error (.internalError "relpersistence does not match")
    else if relform1.relkind ≠ RELKIND_INDEX then
      if TransactionIdIsNormal recentXmin = false then .error .assertionFailed
      else if TransactionIdPrecedes recentXmin r2.relfrozenxid then
        .error .assertionFailed
      else if MultiXactIdIsValid oldestMulti = false then .error .assertionFailed
      else if MultiXactIdPrecedes oldestMulti r2.relminmxid then
        .error .assertionFailed
      else
        .ok ({ relform1 with relfrozenxid := recentXmin,
                             relminmxid := oldestMulti,
                             relallvisible := 0 }, relform2)
    else
      .ok ({ relform1 with relallvisible := 0 }, relform2)

/-! ## Change-capture session (`setup_decoding`, src/pg_squeeze.c:792-868)

The replication-slot name is built from `REPL_SLOT_BASE_NAME` and the
decimal rendering (`%u`) of `MyDatabaseId` alone — the relation being
squeezed does not enter the name.  Since the decimal rendering of a `Nat`
is injective, a slot name is exactly a (base string, database id) pair; we
model it as that pair. -/

/-- `REPL_SLOT_BASE_NAME`. -/
def REPL_SLOT_BASE_NAME : String := "pg_squeeze_slot_"

/-- A replication-slot name: the fixed base followed by the decimal digits
of the database OID. -/
structure SlotName where
  base : String
  dbid : Nat
deriving DecidableEq, Repr

/-- The name `setup_decoding` builds (src/pg_squeeze.c:824-826): it depends
only on `MyDatabaseId`, not on the relation. -/
def slotName (dbid : Nat) : SlotName := ⟨REPL_SLOT_BASE_NAME, dbid⟩

/-- An active capture session: which database it belongs to and which
relation the rebuild that owns it is processing.  Its slot is named
`slotName dbid`. -/
structure CaptureSession where
  dbid : Nat
  relid : Nat
deriving DecidableEq, Repr

/-- `ReplicationSlotCreate` fails (`ERRCODE_DUPLICATE_OBJECT`,
"replication slot ... already exists") when a slot with the requested name
already exists. -/
def ReplicationSlotCreate (name : SlotName) (active : List CaptureSession) :
    Except SqueezeError Unit :=
  if active.any (fun s => slotName s.dbid = name) then .error .duplicateObject
  else .ok ()

/-- `setup_decoding relid dbid hasReplPriv active`: the permission check
("must be superuser or replication role"), then creation of the ephemeral
slot named from the database id. -/
def setup_decoding (relid dbid : Nat) (hasReplPriv : Bool)
    (active : List CaptureSession) : Except SqueezeError CaptureSession :=
  if hasReplPriv = false then .error .insufficientPrivilege
  else
    match ReplicationSlotCreate (slotName dbid) active with
    | .error e => .error e
    | .ok _ => .ok ⟨dbid, relid⟩

/-! ## Prerequisites (`check_prerequisites`, src/pg_squeeze.c:724-778) -/

/-- `FirstNormalObjectId`. -/
def FirstNormalObjectId : Nat := 16384

/-- The properties of the source relation that `check_prerequisites`
examines (`Form_pg_class` fields plus `CheckTableNotInUse`). -/
structure RelForm where
  relid : Nat
  relkind : Char
  relpersistence : Char
  relisshared : Bool
  /-- `RelationIsMapped` -/
  relmapped : Bool
  /-- `CheckTableNotInUse` fails (open cursor, ...) -/
  inUse : Bool
deriving DecidableEq, Repr

/-- `RELKIND_RELATION` and `RELPERSISTENCE_PERMANENT`. -/
def RELKIND_RELATION : Char := 'r'

def RELPERSISTENCE_PERMANENT : Char := 'p'

/-- `check_prerequisites`: ordinary, permanent, non-shared, non-mapped,
non-system relation that no other subsystem has open. -/
def check_prerequisites (rel : RelForm) : Except SqueezeError Unit :=
  if rel.relkind ≠ RELKIND_RELATION then
    .error (.wrongObjectType "is not a table")
  else if rel.relpersistence ≠ RELPERSISTENCE_PERMANENT then
    .error (.wrongObjectType "is not a regular table")
  else if rel.relisshared then .error (.wrongObjectType "is shared relation")
  else if rel.relmapped then .error (.wrongObjectType "is mapped relation")
  else if rel.relid < FirstNormalObjectId then
    .error (.wrongObjectType "is not user relation")
  else if rel.inUse then .error (.objectInUse "table is in use")
  else .ok ()

/-! ## Tablespace mappings (`resolve_index_tablepaces`,
src/pg_squeeze.c:1446-1544)

The SQL array has already been checked for shape (2-dimensional, two
columns, lower bounds 1, no NULLs) and deconstructed; those checks concern
the array value, not the mappings, and are modelled by `ArrayShape`.  The
per-entry loop resolves each index name against the captured index set,
rejects duplicates, and resolves the tablespace name. -/

/-- Shape of the `name[][]` argument, as far as the code checks it. -/
structure ArrayShape where
  ndim : Nat
  /-- `dims[1]`, the size of the second dimension -/
  dim2 : Nat
  lboundsOk : Bool
  hasNulls : Bool
deriving DecidableEq, Repr

/-- The shape checks at the top of `resolve_index_tablepaces`. -/
def check_mapping_array_shape (shape : ArrayShape) : Except SqueezeError Unit :=
  if shape.ndim ≠ 2 then
    .error (.datatypeMismatch "Index-to-tablespace mappings must be text[][] array")
  else if shape.dim2 ≠ 2 then
    .error (.datatypeMismatch "The index-to-tablespace mappings must have 2 columns")
  else if shape.lboundsOk = false then
    .error (.datatypeMismatch "Each dimension of the index-to-tablespace mappings must start at 1")
  else if shape.hasNulls then
    .error (.invalidParameterValue "The index-to-tablespace array is must not contain NULLs")
  else .ok ()

/-- The oid-lookup loop over `cat_state->indexes`: the first entry whose
`relname` equals the requested name. -/
def findIndexOid (inds : List IndexCatInfo) (indname : String) : Option Nat :=
  match inds.find? (fun ic => ic.relname = indname) with
  | some ic => some ic.oid
  | none => none

/-- `get_tablespace_oid(name, missing_ok = false)`: look the name up in the
current list of tablespaces, error when absent. -/
def get_tablespace_oid (tablespaces : List (String × Nat)) (name : String) :
    Except SqueezeError Nat :=
  match tablespaces.find? (fun p => p.1 = name) with
  | some p => .ok p.2
  | none => .error (.undefinedObject "tablespace does not exist")

/-- The per-entry loop of `resolve_index_tablepaces`.  `acc` is the list of
`(index oid, tablespace oid)` mappings resolved so far (the growing
`tbsp_info->indexes` array); a new entry whose index oid is already present
is a duplicate. -/
def resolve_mappings_loop (catIndexes : List IndexCatInfo)
    (tablespaces : List (String × Nat)) (acc : List (Nat × Nat)) :
    List (String × String) → Except SqueezeError (List (Nat × Nat))
  | [] => .ok acc
  | (indname, tbspname) :: rest =>
    match findIndexOid catIndexes indname with
    | none => .error (.invalidParameterValue "Table has no index")
    | some ind_oid =>
      if acc.any (fun p => p.1 = ind_oid) then
        .error (.invalidParameterValue "Duplicate tablespace mapping for index")
      else
        match get_tablespace_oid tablespaces tbspname with
        | .error e => .error e
        | .ok tbsp_oid =>
          resolve_mappings_loop catIndexes tablespaces
            (acc ++ [(ind_oid, tbsp_oid)]) rest

/-- `resolve_index_tablepaces`: shape checks, then the resolution loop over
the `(index name, tablespace name)` pairs. -/
def resolve_index_tablepaces (shape : ArrayShape)
    (catIndexes : List IndexCatInfo) (tablespaces : List (String × Nat))
    (mappings : List (String × String)) :
    Except SqueezeError (List (Nat × Nat)) :=
  match check_mapping_array_shape shape with
  | .error e => .error e
  | .ok _ => resolve_mappings_loop catIndexes tablespaces [] mappings

/-! ## The rebuild pipeline (`squeeze_table`, src/pg_squeeze.c:264-701)

`squeeze_table` is a straight-line sequence of steps; we model it as a
function from its inputs (arguments plus the values the environment
supplies at each step) to the trace of observable events it performs and
its outcome.  An `ereport(ERROR)` aborts the transaction: the trace simply
ends there (PostgreSQL releases locks and drops the ephemeral slot and the
transient table as part of the abort, so no further events happen).

Environment-supplied inputs: the results of the fresh catalog reads at
each `check_catalog_changes` call site, whether each deadline-bounded drain
finished in time, and the outcome of environment checks inside steps whose
own logic is not claim-relevant (tablespace ACL check inside
`create_transient_table`, clusterability check inside
`perform_initial_load`).  Resource-exhaustion failures (out of memory,
interrupts) are outside the model. -/

/-- Replica-identity codes (`catalog/pg_class.h`). -/
def REPLICA_IDENTITY_DEFAULT : Char := 'd'

def REPLICA_IDENTITY_NOTHING : Char := 'n'

def REPLICA_IDENTITY_FULL : Char := 'f'

def REPLICA_IDENTITY_INDEX : Char := 'i'

/-- `GLOBALTABLESPACE_OID`. -/
def GLOBALTABLESPACE_OID : Nat := 1664

/-- The observable events of a rebuild, in program order. -/
inductive Event where
  | openRel (relid : Nat) (mode : LockMode)
  | closeRel (relid : Nat) (mode : LockMode)
  /-- `setup_decoding` created the replication slot -/
  | openCaptureSession (name : SlotName)
  | buildHistoricSnapshot
  | createTransientTable (relid : Nat)
  | checkCatalog (mode : LockMode)
  | initialLoad
  | buildTransientIndexes
  | lockRelExclusive (relid : Nat)
  | unlockRelExclusive (relid : Nat)
  | xlogFlush
  /-- decode and apply concurrent changes; `bounded` is true when a
  deadline (`squeeze_max_xlock_time`) applies to the call -/
  | processChanges (bounded : Bool)
  | releaseCaptureSession
  | swapRelationFiles (r1 r2 : Nat)
  | swapToastNames
  | dropRel (relid : Nat)
deriving DecidableEq, Repr

/-- `create_transient_table` (src/pg_squeeze.c:1972): the tablespace ACL
check (its outcome is the environment input `aclOk`) and the `pg_global`
check; the actual heap creation yields the transient table's oid. -/
def create_transient_table (tablespace dbTablespace : Nat) (aclOk : Bool)
    (relidDst : Nat) : Except SqueezeError Nat :=
  if OidIsValid tablespace ∧ tablespace ≠ dbTablespace ∧ aclOk = false then
    .error .insufficientPrivilege
  else if tablespace = GLOBALTABLESPACE_OID then
    .error (.invalidParameterValue "only shared relations can be placed in pg_global tablespace")
  else .ok relidDst

/-- One attempt of the final stage (`perform_final_merge`,
src/pg_squeeze.c:2364-2479).  Takes `AccessExclusiveLock` on the source
relation and then on each of its indexes, re-checks the catalog (a failure
here is an `ERROR`, fatal to the whole rebuild), flushes the WAL and
processes the remaining changes, bounded by a deadline iff
`squeeze_max_xlock_time > 0` (`drainOk` says whether that bounded call
reached the end of the WAL before the deadline).  On timeout it first
releases all the exclusive locks (indexes, then the relation) and only
then processes the partially decoded changes without a deadline, and
returns `false`. -/
def perform_final_merge (relidSrc : Nat) (indexesSrc : List Nat)
    (maxXlockTime : Nat) (catState : CatalogState) (catRead : CatalogRead)
    (drainOk : Bool) : List Event × Except SqueezeError Bool :=
  let locks := Event.lockRelExclusive relidSrc ::
    indexesSrc.map Event.lockRelExclusive
  match check_catalog_changes catState .noLock catRead with
  | .error e => (locks ++ [.checkCatalog .noLock], .error e)
  | .ok _ =>
    let bounded := decide (0 < maxXlockTime)
    let t := locks ++ [.checkCatalog .noLock, .xlogFlush,
                       .processChanges bounded]
    if !bounded || drainOk then (t, .ok true)
    else
      (t ++ indexesSrc.map Event.unlockRelExclusive ++
         [.unlockRelExclusive relidSrc, .processChanges false],
       .ok false)

/-- The bounded retry loop of src/pg_squeeze.c:629-642: try
`perform_final_merge` while fuel remains, starting with attempt number
`i`; stop at the first success.  Result `.ok false` means every attempt
timed out. -/
def final_merge_attempts (relidSrc : Nat) (indexesSrc : List Nat)
    (maxXlockTime : Nat) (catState : CatalogState)
    (mergeCatReads : List CatalogRead) (drainOks : List Bool) :
    Nat → Nat → List Event × Except SqueezeError Bool
  | _, 0 => ([], .ok false)
  | i, fuel + 1 =>
    match perform_final_merge relidSrc indexesSrc maxXlockTime catState
        (mergeCatReads.getD i default) (drainOks.getD i false) with
    | (t, .error e) => (t, .error e)
    | (t, .ok true) => (t, .ok true)
    | (t, .ok false) =>
      let rest := final_merge_attempts relidSrc indexesSrc maxXlockTime
        catState mergeCatReads drainOks (i + 1) fuel
      (t ++ rest.1, rest.2)

/-- All inputs of one `squeeze_table` run: the SQL arguments and the values
the environment supplies along the way. -/
structure SqueezeInput where
  /-- argument 0 is SQL NULL -/
  schemaNull : Bool
  /-- argument 1 is SQL NULL -/
  tableNull : Bool
  /-- `MyDatabaseId` -/
  dbid : Nat
  /-- `MyDatabaseTableSpace` -/
  dbTablespace : Nat
  /-- the source relation -/
  rel : RelForm
  /-- `rel_src->rd_rel->relreplident` -/
  replident : Char
  /-- `RelationGetReplicaIndex(rel_src)`; `InvalidOid` when there is none -/
  identIdxSrc : Nat
  /-- `get_catalog_state(relid_src)` -/
  catState : CatalogState
  /-- `form_class->reltablespace`, the default for the transient table -/
  relTablespace : Nat
  /-- argument 3, the target tablespace name -/
  tableTbspArg : Option String
  /-- argument 4, the index-to-tablespace mapping array -/
  mappingsArg : Option (ArrayShape × List (String × String))
  /-- the tablespaces existing in the cluster, by name -/
  tablespaces : List (String × Nat)
  /-- caller is superuser or has the replication role attribute -/
  hasReplPriv : Bool
  /-- capture sessions (replication slots) already active -/
  activeSessions : List CaptureSession
  /-- the oid the transient table receives -/
  relidDst : Nat
  /-- tablespace ACL check inside `create_transient_table` passes -/
  tbspAclOk : Bool
  /-- oids of the transient indexes, positionally matching
  `cat_state->indexes` -/
  indexesDst : List Nat
  /-- fresh catalog read at the `NoLock` re-check (src:469) -/
  catRead1 : CatalogRead
  /-- fresh catalog read at the `AccessShareLock` re-check (src:499) -/
  catRead2 : CatalogRead
  /-- `perform_initial_load` succeeds (clusterability check and scan) -/
  initialLoadOk : Bool
  /-- `get_index_info` at src:613 reports an invalid index -/
  invalidIndexRecheck : Bool
  /-- `squeeze_max_xlock_time` in milliseconds; 0 = unbounded -/
  maxXlockTime : Nat
  /-- fresh catalog reads inside the merge attempts, by attempt number -/
  mergeCatReads : List CatalogRead
  /-- per attempt: the bounded drain reached the end of WAL in time -/
  drainOks : List Bool

/-- The whole `squeeze_table` run (src/pg_squeeze.c:264-701): events
performed, and the outcome. -/
def squeeze_table (inp : SqueezeInput) : List Event × Except SqueezeError Unit :=
  -- src:293 both name arguments must be non-NULL, checked before anything else
  if inp.schemaNull ∨ inp.tableNull then ([], .error .nullValueNotAllowed)
  else
    -- src:301 open and lock the source relation
    let t0 := [Event.openRel inp.rel.relid .accessShare]
    match check_prerequisites inp.rel with
    | .error e => (t0, .error e)
    | .ok _ =>
      -- src:330-336 capture the catalog state; give up on an invalid index
      if inp.catState.invalid_index then
        (t0, .error .objectNotInPrerequisiteState)
      else
        -- src:348 unlock the source before creating the slot
        let t1 := t0 ++ [Event.closeRel inp.rel.relid .accessShare]
        -- src:366-371 no identity index
        if inp.replident = REPLICA_IDENTITY_NOTHING ∨
            (inp.replident = REPLICA_IDENTITY_DEFAULT ∧
             OidIsValid inp.identIdxSrc = false) then
          (t1, .error (.uniqueViolation "Table has no identity index"))
        -- src:374-377 replica identity FULL
        else if inp.replident = REPLICA_IDENTITY_FULL then
          (t1, .error (.uniqueViolation "Replica identity full not supported"))
        else
          -- src:410-421 target tablespace of the table
          match (match inp.tableTbspArg with
                 | some nm => get_tablespace_oid inp.tablespaces nm
                 | none => .ok inp.relTablespace) with
          | .error e => (t1, .error e)
          | .ok tbspTable =>
            -- src:424-429 validate the index-to-tablespace mappings
            match (match inp.mappingsArg with
                   | some (shape, ms) =>
                     match resolve_index_tablepaces shape inp.catState.indexes
                         inp.tablespaces ms with
                     | .error e => Except.error e
                     | .ok _ => Except.ok ()
                   | none => Except.ok ()) with
            | .error e => (t1, .error e)
            | .ok _ =>
              let indexesSrc := inp.catState.indexes.map (fun ic => ic.oid)
              -- src:445 open the capture session
              match setup_decoding inp.rel.relid inp.dbid inp.hasReplPriv
                  inp.activeSessions with
              | .error e => (t1, .error e)
              | .ok _ =>
                let t2 := t1 ++ [Event.openCaptureSession (slotName inp.dbid),
                                 Event.buildHistoricSnapshot]
                -- src:453 create the transient table
                match create_transient_table tbspTable inp.dbTablespace
                    inp.tbspAclOk inp.relidDst with
                | .error e => (t2, .error e)
                | .ok _ =>
                  -- create_transient_table returns the transient table's oid,
                  -- inp.relidDst
                  let relidDst := inp.relidDst
                  let t3 := t2 ++ [Event.createTransientTable relidDst,
                                   Event.openRel inp.rel.relid .accessShare,
                                   Event.openRel relidDst .noLock]
                  -- src:469 catalog re-check, NoLock
                  match check_catalog_changes inp.catState .noLock
                      inp.catRead1 with
                  | .error e => (t3 ++ [Event.checkCatalog .noLock], .error e)
                  | .ok _ =>
                    let t4 := t3 ++ [Event.checkCatalog .noLock,
                                     Event.initialLoad]
                    -- src:475 initial load under the historic snapshot
                    if inp.initialLoadOk = false then
                      (t4, .error (.internalError "initial load failed"))
                    else
                      -- src:499 catalog re-check, AccessShareLock
                      match check_catalog_changes inp.catState .accessShare
                          inp.catRead2 with
                      | .error e =>
                        (t4 ++ [Event.checkCatalog .accessShare], .error e)
                      | .ok _ =>
                        let t5 := t4 ++ [Event.checkCatalog .accessShare,
                                         Event.buildTransientIndexes]
                        -- src:530 build_identity_key opens the identity
                        -- index; with InvalidOid, index_open raises
                        if OidIsValid inp.identIdxSrc = false then
                          (t5, .error (.internalError "could not open relation"))
                        else
                          -- src:546 release the shared lock
                          let t6 := t5 ++ [Event.closeRel inp.rel.relid
                                             .accessShare]
                          -- src:553-568 transient identity index lookup
                          match (match indexesSrc.findIdx?
                                    (fun o => o = inp.identIdxSrc) with
                                 | none => none
                                 | some i => inp.indexesDst.get? i) with
                          | none =>
                            (t6, .error (.internalError
                              "Identity index missing on the transient relation"))
                          | some _ =>
                            -- src:578-599 flush WAL, decode the backlog
                            -- accumulated so far (no deadline)
                            let t7 := t6 ++ [Event.xlogFlush,
                                             Event.processChanges false]
                            -- src:613-619 cheap re-check of pg_index
                            if inp.invalidIndexRecheck then
                              (t7, .error (.objectInUse
                                "Concurrent change of index detected"))
                            else
                              -- src:629-646 bounded retry of the final merge
                              let merged := final_merge_attempts inp.rel.relid
                                indexesSrc inp.maxXlockTime inp.catState
                                inp.mergeCatReads inp.drainOks 0 4
                              match merged.2 with
                              | .error e => (t7 ++ merged.1, .error e)
                              | .ok false =>
                                (t7 ++ merged.1, .error (.objectInUse
                                  "squeeze_max_xlock_time prevented squeeze from completion"))
                              | .ok true =>
                                -- src:654-698 release decoding, swap storage
                                -- of table, TOAST and indexes, drop the
                                -- transient shell
                                (t7 ++ merged.1 ++
                                   [Event.releaseCaptureSession,
                                    Event.closeRel relidDst .noLock,
                                    Event.swapRelationFiles inp.rel.relid
                                      relidDst,
                                    Event.swapToastNames] ++
                                   (indexesSrc.zip inp.indexesDst).map
                                     (fun p => Event.swapRelationFiles p.1 p.2) ++
                                   [Event.dropRel relidDst],
                                 .ok ())

/-- Events that belong to change capture or to the building of the copy:
opening the capture session, anchoring the historic snapshot, creating the
transient table, the initial load. -/
def Event.isCaptureOrCopy : Event → Bool
  | .openCaptureSession _ => true
  | .buildHistoricSnapshot => true
  | .createTransientTable _ => true
  | .initialLoad => true
  | _ => false

/-- No capture has been opened and no copying has started in this trace. -/
def noCaptureOrCopy (t : List Event) : Bool :=
  t.all (fun e => !e.isCaptureOrCopy)

/-- Events that modify the source table's catalog entry or storage:
the storage swaps and the drop of the transient relation. -/
def Event.isSwapOrDrop : Event → Bool
  | .swapRelationFiles _ _ => true
  | .swapToastNames => true
  | .dropRel _ => true
  | _ => false

/-- The source table was left untouched by this trace. -/
def sourceUntouched (t : List Event) : Bool :=
  t.all (fun e => !e.isSwapOrDrop)

/-- The exclusive lock on `relid` is held after the events `t`: more
exclusive-lock acquisitions than releases.  (Locks are otherwise released
only at transaction end, after the function returns.) -/
def exclusiveHeld (t : List Event) (relid : Nat) : Bool :=
  t.count (.unlockRelExclusive relid) < t.count (.lockRelExclusive relid)

/-! ## Exactly-once capture (spec §3, §4.2-§4.4, §5, §8)

The bodies of `process_concurrent_changes` and `apply_concurrent_changes`
(the decode/replay engine) are part of this repository but not under
`src/` — `src/pg_squeeze.c` only declares and calls them.  The model in
this namespace is therefore built from the specification's words, as the
doc comments state. -/

namespace SpecModel

/-- Modelled from the spec (§3 `ChangeEvent`): a committed row-level write,
"tagged variant {Insert(row image) | Update(old key values, new row image)
| Delete(old key values)}".  A row image is a key paired with the rest of
the row. -/
inductive ChangeEvent (K R : Type) where
  | insert (row : K × R)
  | update (oldKey : K) (newRow : K × R)
  | delete (oldKey : K)
deriving DecidableEq, Repr

/-- Table contents: rows in insertion order (the transient table is built
append-only). -/
abbrev Table (K R : Type) : Type := List (K × R)

/-- Modelled from the spec (§4.4 `ChangeReplayEngine.apply`): Insert
inserts the row image directly; Update locates the rows matching the old
key, deletes them and inserts the new row image (delete+insert, not
in-place); Delete locates and deletes the matching rows. -/
def applyEvent {K R : Type} [DecidableEq K] (t : Table K R) :
    ChangeEvent K R → Table K R
  | .insert row => t ++ [row]
  | .update oldKey newRow =>
      (t.filter fun p => decide (p.1 ≠ oldKey)) ++ [newRow]
  | .delete oldKey => t.filter fun p => decide (p.1 ≠ oldKey)

/-- Events applied one after the other, in commit/arrival order. -/
def applyEvents {K R : Type} [DecidableEq K] (t : Table K R)
    (evs : List (ChangeEvent K R)) : Table K R :=
  evs.foldl applyEvent t

/-- Modelled from the spec (§4.2, §4.3, §5): the historic read view is
anchored at the exact point the change-capture feed begins; with the
committed history in commit order and the anchor after its first `a`
writes, the initial copy is the base contents with exactly those first `a`
writes applied. -/
def initialCopy {K R : Type} [DecidableEq K] (base : Table K R)
    (history : List (ChangeEvent K R)) (a : Nat) : Table K R :=
  applyEvents base (history.take a)

/-- Modelled from the spec (§4.3, §5): change capture emits precisely the
writes committed from the anchor on, in commit order. -/
def capturedEvents {K R : Type} (history : List (ChangeEvent K R))
    (a : Nat) : List (ChangeEvent K R) :=
  history.drop a

/-- Modelled from the spec (§4.4): replay consumes the captured events
once, in order, applying each to the transient table. -/
def replay {K R : Type} [DecidableEq K] (t : Table K R)
    (evs : List (ChangeEvent K R)) : Table K R :=
  applyEvents t evs

/-- The commit-order positions of the writes visible in the initial copy:
the first `a` positions of the history. -/
def initialCopyIds (a : Nat) : List Nat := List.range a

/-- The commit-order positions of the writes emitted by capture, for a
history of `n` writes and anchor `a`. -/
def capturedIds (n a : Nat) : List Nat := List.range' a (n - a)

end SpecModel

/-! ## Sample data

Concrete inputs used to instantiate the theorems; the catalog read values
are chosen to match the captured state, so re-checks pass. -/

/-- A sample index of the source table. -/
def sampleIndex : IndexCatInfo :=
  { oid := 20001, xmin := 900, pg_class_xmin := 901, relname := "t_pkey",
    reltablespace := 0 }

/-- A sample catalog state as captured at rebuild start. -/
def sampleCatState : CatalogState :=
  { relid := 20000, pg_class_xmin := 800, reltoastrelid := 0, toast_xmin := 0,
    attr_xmins := [10, 11], indexes := [sampleIndex], invalid_index := false }

/-- A fresh catalog read that matches `sampleCatState` token for token. -/
def sampleCatRead : CatalogRead :=
  { pg_class_exists := true, pg_class_xmin := 800, toast_exists := true,
    toast_xmin := 0, attr_xmins := [10, 11], invalid_index := false,
    indexes := [sampleIndex] }

/-- A run of `squeeze_table` in which every environment interaction goes
well: it succeeds on the first final-merge attempt
(`squeeze_max_xlock_time = 0`, so the drain is unbounded). -/
def sampleInput : SqueezeInput :=
  { schemaNull := false, tableNull := false, dbid := 5, dbTablespace := 1663,
    rel := { relid := 20000, relkind := 'r', relpersistence := 'p',
             relisshared := false, relmapped := false, inUse := false },
    replident := REPLICA_IDENTITY_DEFAULT, identIdxSrc := 20001,
    catState := sampleCatState, relTablespace := 0,
    tableTbspArg := none, mappingsArg := none,
    tablespaces := [("ts1", 30001)],
    hasReplPriv := true, activeSessions := [],
    relidDst := 21000, tbspAclOk := true, indexesDst := [21001],
    catRead1 := sampleCatRead, catRead2 := sampleCatRead,
    initialLoadOk := true, invalidIndexRecheck := false,
    maxXlockTime := 0,
    mergeCatReads := [sampleCatRead, sampleCatRead, sampleCatRead,
                      sampleCatRead],
    drainOks := [true, true, true, true] }

/-- A source table whose replica identity is `USING INDEX` but whose
designated identity index has been dropped concurrently before the rebuild
started: `relreplident` is still `'i'` while `RelationGetReplicaIndex`
returns `InvalidOid`. -/
def replicaIdentityIndexGoneInput : SqueezeInput :=
  { sampleInput with replident := REPLICA_IDENTITY_INDEX, identIdxSrc := 0 }

/-- A well-shaped `name[][]` mapping array. -/
def sampleShape : ArrayShape :=
  { ndim := 2, dim2 := 2, lboundsOk := true, hasNulls := false }

/-- A run whose index-to-tablespace mapping names an index the table does
not have. -/
def unknownIndexMappingInput : SqueezeInput :=
  { sampleInput with
    mappingsArg := some (sampleShape, [("no_such_index", "ts1")]) }

/-- A run with a 100 ms exclusive-lock budget in which every bounded drain
times out (`drainOks` empty: no attempt ever finishes in time). -/
def timeoutInput : SqueezeInput :=
  { sampleInput with
    maxXlockTime := 100
    drainOks := [] }

/-- A source table whose replica identity is FULL. -/
def fullIdentityInput : SqueezeInput :=
  { sampleInput with replident := REPLICA_IDENTITY_FULL }

/-! # Theorems -/

/-! ## C1 — exactly-once capture (spec-modelled, see the `SpecModel`
namespace) -/

/-- **C1** (exactly-once capture): with the committed history in commit
order and the capture anchored after its first `a` writes, replaying the
captured events onto the initial copy yields exactly the table with the
whole history applied; and each write is either visible in the initial
copy (and not emitted by capture) or emitted by capture exactly once (and
not in the initial copy) — never both, never neither. -/
theorem C1_exactly_once_capture {K R : Type} [DecidableEq K]
    (base : SpecModel.Table K R) (history : List (SpecModel.ChangeEvent K R))
    (a : Nat) (h : a ≤ history.length) :
    SpecModel.replay (SpecModel.initialCopy base history a)
        (SpecModel.capturedEvents history a) =
      SpecModel.applyEvents base history ∧
    ∀ i < history.length,
      ((SpecModel.initialCopyIds a).count i = 1 ∧
        (SpecModel.capturedIds history.length a).count i = 0) ∨
      ((SpecModel.initialCopyIds a).count i = 0 ∧
        (SpecModel.capturedIds history.length a).count i = 1) := by
  constructor
  · unfold SpecModel.replay SpecModel.initialCopy SpecModel.capturedEvents
      SpecModel.applyEvents
    rw [← List.foldl_append, List.take_append_drop]
  · intro i hi
    by_cases hia : i < a
    · left
      constructor
      · exact List.count_eq_one_of_mem (List.nodup_range a)
          (List.mem_range.mpr hia)
      · rw [List.count_eq_zero]
        intro hmem
        rw [SpecModel.capturedIds, List.mem_range'_1] at hmem
        omega
    · right
      constructor
      · rw [List.count_eq_zero]
        intro hmem
        rw [SpecModel.initialCopyIds, List.mem_range] at hmem
        omega
      · refine List.count_eq_one_of_mem
          (List.nodup_range' a (history.length - a)) ?_
        rw [SpecModel.capturedIds, List.mem_range'_1]
        omega

/-- Witness for C1 at a concrete anchor. -/
theorem C1_exactly_once_capture_witness :
    (1 : Nat) ≤ ([SpecModel.ChangeEvent.insert ((2 : Nat), "b"),
                  SpecModel.ChangeEvent.delete (1 : Nat)]).length ∧
    (SpecModel.replay
        (SpecModel.initialCopy [((1 : Nat), "a")]
          [SpecModel.ChangeEvent.insert ((2 : Nat), "b"),
           SpecModel.ChangeEvent.delete (1 : Nat)] 1)
        (SpecModel.capturedEvents
          [SpecModel.ChangeEvent.insert ((2 : Nat), "b"),
           SpecModel.ChangeEvent.delete (1 : Nat)] 1) =
      SpecModel.applyEvents [((1 : Nat), "a")]
        [SpecModel.ChangeEvent.insert ((2 : Nat), "b"),
         SpecModel.ChangeEvent.delete (1 : Nat)] ∧
    ∀ i < ([SpecModel.ChangeEvent.insert ((2 : Nat), "b"),
            SpecModel.ChangeEvent.delete (1 : Nat)]).length,
      ((SpecModel.initialCopyIds 1).count i = 1 ∧
        (SpecModel.capturedIds 2 1).count i = 0) ∨
      ((SpecModel.initialCopyIds 1).count i = 0 ∧
        (SpecModel.capturedIds 2 1).count i = 1)) :=
  ⟨by decide, C1_exactly_once_capture [((1 : Nat), "a")] _ 1 (by decide)⟩

/-! ## C9 — NULL name arguments -/

/-- **C9**: with a NULL schema or table name, `squeeze_table` fails with
the null-value-not-allowed error before anything else happens — the event
trace is empty, so the target relation was never touched. -/
theorem C9_null_arguments (inp : SqueezeInput)
    (h : inp.schemaNull = true ∨ inp.tableNull = true) :
    squeeze_table inp = ([], .error .nullValueNotAllowed) := by
  unfold squeeze_table
  rcases h with h | h <;> rw [if_pos] <;> simp [h]

/-- Witness for C9: a run with a NULL schema name. -/
theorem C9_null_arguments_witness :
    (({ sampleInput with schemaNull := true } : SqueezeInput).schemaNull = true ∨
     ({ sampleInput with schemaNull := true } : SqueezeInput).tableNull = true) ∧
    squeeze_table { sampleInput with schemaNull := true } =
      ([], .error .nullValueNotAllowed) :=
  ⟨Or.inl rfl, C9_null_arguments _ (Or.inl rfl)⟩

/-! ## C10 — free-space helper -/

/-- **C10**: `get_heap_freespace` returns NULL not only when the FSM fork
is missing but also for every relation whose heap has zero blocks — even
when an FSM exists; for a non-empty relation with an FSM it returns the
recorded free space divided by the total size. -/
theorem C10_freespace (n : Nat) (recordedFree : Nat → Nat) (fsm : Bool)
    (h : 0 < n) :
    get_heap_freespace 0 recordedFree fsm = none ∧
    get_heap_freespace n recordedFree true =
      some ((recordedFreeTotal n recordedFree : ℚ) /
        ((n * BLCKSZ : Nat) : ℚ)) := by
  refine ⟨by simp [get_heap_freespace], ?_⟩
  unfold get_heap_freespace
  rw [if_neg (by omega)]
  simp

/-- Witness for C10 at a two-block relation. -/
theorem C10_freespace_witness :
    (0 : Nat) < 2 ∧
    (get_heap_freespace 0 (fun _ => 100) false = none ∧
     get_heap_freespace 2 (fun _ => 100) true =
       some ((recordedFreeTotal 2 (fun _ => 100) : ℚ) /
         ((2 * BLCKSZ : Nat) : ℚ))) :=
  ⟨by decide, C10_freespace 2 (fun _ => 100) false (by decide)⟩

/-! ## C3 — one capture session per *database*, not per table -/

/-- **C3 counterexample**: a capture session opened by a rebuild of table
10 in database 5 makes `setup_decoding` for a *different* table (20) of the
same database fail with the already-active (duplicate slot) error, even
though no active session targets table 20.  The claim's "fails ... exactly
when a capture session for the same logical target already exists" and
"rebuilds of different tables, even within the same database, may run
concurrently" are both false: the slot name is derived from the database
id alone. -/
theorem C3_counterexample :
    setup_decoding 20 5 true [⟨5, 10⟩] = .error .duplicateObject ∧
    ∀ s ∈ ([⟨5, 10⟩] : List CaptureSession), s.relid ≠ 20 := by
  decide

/-- **C3 amended**: opening a capture session fails with the already-active
error exactly when an active session belongs to the same *database*
(whatever table it is rebuilding); with no session in that database it
succeeds.  Hence no two rebuilds can run concurrently in one database, and
rebuilds in different databases are independent. -/
theorem C3_session_per_database (relid dbid : Nat)
    (active : List CaptureSession) :
    (setup_decoding relid dbid true active = .error .duplicateObject ↔
      ∃ s ∈ active, s.dbid = dbid) ∧
    ((¬ ∃ s ∈ active, s.dbid = dbid) →
      setup_decoding relid dbid true active = .ok ⟨dbid, relid⟩) := by
  have hiff : (active.any fun s => decide (slotName s.dbid = slotName dbid)) =
      true ↔ ∃ s ∈ active, s.dbid = dbid := by
    simp [List.any_eq_true, slotName]
  constructor
  · rw [← hiff]
    unfold setup_decoding ReplicationSlotCreate
    by_cases hb : (active.any fun s =>
        decide (slotName s.dbid = slotName dbid)) = true <;>
      simp [hb]
  · intro hnone
    unfold setup_decoding ReplicationSlotCreate
    rw [← hiff] at hnone
    simp only [Bool.not_eq_true] at hnone
    simp [hnone]

/-- Witness for C3's amended theorem at a concrete session list. -/
theorem C3_session_per_database_witness :
    (setup_decoding 20 5 true [⟨5, 10⟩] = .error .duplicateObject ↔
      ∃ s ∈ ([⟨5, 10⟩] : List CaptureSession), s.dbid = 5) ∧
    ((¬ ∃ s ∈ ([⟨5, 10⟩] : List CaptureSession), s.dbid = 5) →
      setup_decoding 20 5 true [⟨5, 10⟩] = .ok ⟨5, 20⟩) :=
  C3_session_per_database 20 5 [⟨5, 10⟩]

/-! ## C5 — fingerprint re-verification and lock modes -/

/-- `check_pg_class_changes` succeeds exactly when the row still exists and
the stored xmin matches. -/
theorem check_pg_class_changes_ok_iff (ex : Bool) (cur st : Nat) :
    check_pg_class_changes ex cur st = .ok () ↔ ex = true ∧ cur = st := by
  unfold check_pg_class_changes
  split_ifs with h1 h2 <;> simp_all

/-- `check_attribute_changes` succeeds exactly when there was nothing to
compare or the token lists agree. -/
theorem check_attribute_changes_ok_iff (a b : List Nat) :
    check_attribute_changes a b = .ok () ↔ a = [] ∨ a = b := by
  unfold check_attribute_changes
  split_ifs with h1 h2 <;> simp_all

/-- `check_index_changes` succeeds exactly when there was nothing to
compare or the fresh read is valid and matches pairwise. -/
theorem check_index_changes_ok_iff (inds new : List IndexCatInfo)
    (inv : Bool) :
    check_index_changes inds new inv = .ok () ↔
      inds = [] ∨ (inv = false ∧ indexListMatch inds new = true) := by
  unfold check_index_changes
  split_ifs with h1 h2
  · simp_all
  · have h3 : inv = true ∨ indexListMatch inds new = false := by
      simpa [Bool.or_eq_true] using h2
    rcases h3 with h3 | h3 <;> simp_all
  · have h3 : inv = false ∧ indexListMatch inds new = true := by
      simpa [Bool.or_eq_true] using h2
    simp_all

/-- **C5**: under the strongest (access-exclusive) lock,
`check_catalog_changes` performs no comparison and succeeds for *every*
catalog state and fresh read; under any weaker lock its behaviour is the
same as under no lock at all, and it succeeds exactly when the fresh
re-read matches the stored fingerprint token for token. -/
theorem C5_verify_lock_modes (state : CatalogState) (lock : LockMode)
    (cur : CatalogRead) (h : lock ≠ .accessExclusive) :
    check_catalog_changes state .accessExclusive cur = .ok () ∧
    check_catalog_changes state lock cur =
      check_catalog_changes state .noLock cur ∧
    (check_catalog_changes state lock cur = .ok () ↔
      catalogUnchanged state cur) := by
  refine ⟨by simp [check_catalog_changes], ?_, ?_⟩
  · unfold check_catalog_changes
    rw [if_neg h, if_neg (by decide : (LockMode.noLock : LockMode) ≠
      LockMode.accessExclusive)]
  · unfold check_catalog_changes
    rw [if_neg h]
    unfold catalogUnchanged
    cases h1 : check_pg_class_changes cur.pg_class_exists cur.pg_class_xmin
        state.pg_class_xmin with
    | error e1 =>
      have := (check_pg_class_changes_ok_iff cur.pg_class_exists
        cur.pg_class_xmin state.pg_class_xmin).symm
      rw [h1] at this
      simp only [h1]
      constructor
      · intro hc; exact absurd hc (by simp)
      · intro hU
        exact absurd (this.mp ⟨hU.1, hU.2.1⟩) (by simp)
    | ok u1 =>
      have hpg := (check_pg_class_changes_ok_iff cur.pg_class_exists
        cur.pg_class_xmin state.pg_class_xmin).mp (by rw [h1])
      cases h2 : (if state.reltoastrelid ≠ InvalidOid then
          check_pg_class_changes cur.toast_exists cur.toast_xmin
            state.toast_xmin
        else Except.ok ()) with
      | error e2 =>
        simp only [h1, h2]
        constructor
        · intro hc; exact absurd hc (by simp)
        · intro hU
          by_cases ht : state.reltoastrelid ≠ InvalidOid
          · rw [if_pos ht, (check_pg_class_changes_ok_iff _ _ _).mpr
              ⟨(hU.2.2.1 ht).1, (hU.2.2.1 ht).2⟩] at h2
            exact absurd h2 (by simp)
          · rw [if_neg ht] at h2
            exact absurd h2 (by simp)
      | ok u2 =>
        cases h3 : check_index_changes state.indexes cur.indexes
            cur.invalid_index with
        | error e3 =>
          simp only [h1, h2, h3]
          constructor
          · intro hc; exact absurd hc (by simp)
          · intro hU
            by_cases hi : state.indexes = []
            · rw [(check_index_changes_ok_iff _ _ _).mpr (Or.inl hi)] at h3
              exact absurd h3 (by simp)
            · rw [(check_index_changes_ok_iff _ _ _).mpr
                (Or.inr (hU.2.2.2.1 hi))] at h3
              exact absurd h3 (by simp)
        | ok u3 =>
          have hidx := (check_index_changes_ok_iff state.indexes cur.indexes
            cur.invalid_index).mp (by rw [h3])
          have htoast : state.reltoastrelid ≠ InvalidOid →
              cur.toast_exists = true ∧ cur.toast_xmin = state.toast_xmin := by
            intro ht
            rw [if_pos ht] at h2
            exact (check_pg_class_changes_ok_iff _ _ _).mp (by rw [h2])
          simp only [h1, h2, h3]
          rw [check_attribute_changes_ok_iff]
          constructor
          · intro hattr
            refine ⟨hpg.1, hpg.2, htoast, ?_, ?_⟩
            · intro hi
              rcases hidx with hidx | hidx
              · exact absurd hidx hi
              · exact hidx
            · intro ha
              rcases hattr with hattr | hattr
              · exact absurd hattr ha
              · exact hattr
          · intro hU
            by_cases ha : state.attr_xmins = []
            · exact Or.inl ha
            · exact Or.inr (hU.2.2.2.2 ha)

/-- Witness for C5 at a matching state and read, under `NoLock`. -/
theorem C5_verify_lock_modes_witness :
    (LockMode.noLock : LockMode) ≠ LockMode.accessExclusive ∧
    (check_catalog_changes sampleCatState .accessExclusive sampleCatRead =
        .ok () ∧
     check_catalog_changes sampleCatState .noLock sampleCatRead =
       check_catalog_changes sampleCatState .noLock sampleCatRead ∧
     (check_catalog_changes sampleCatState .noLock sampleCatRead = .ok () ↔
       catalogUnchanged sampleCatState sampleCatRead)) :=
  ⟨by decide,
   C5_verify_lock_modes sampleCatState .noLock sampleCatRead (by decide)⟩

/-! ## Helper lemmas about event traces -/

theorem count_map_lock_lock (l : List Nat) (x : Nat) :
    (l.map Event.lockRelExclusive).count (Event.lockRelExclusive x) =
      l.count x := by
  induction l with
  | nil => rfl
  | cons a l ih => simp [List.count_cons, ih]

theorem count_map_lock_unlock (l : List Nat) (x : Nat) :
    (l.map Event.lockRelExclusive).count (Event.unlockRelExclusive x) = 0 := by
  induction l with
  | nil => rfl
  | cons a l ih => simp [List.count_cons, ih]

theorem count_map_unlock_unlock (l : List Nat) (x : Nat) :
    (l.map Event.unlockRelExclusive).count (Event.unlockRelExclusive x) =
      l.count x := by
  induction l with
  | nil => rfl
  | cons a l ih => simp [List.count_cons, ih]

theorem count_map_unlock_lock (l : List Nat) (x : Nat) :
    (l.map Event.unlockRelExclusive).count (Event.lockRelExclusive x) = 0 := by
  induction l with
  | nil => rfl
  | cons a l ih => simp [List.count_cons, ih]

theorem count_map_swap_lock (l : List (Nat × Nat)) (x : Nat) :
    ((l.map fun p => Event.swapRelationFiles p.1 p.2)).count
      (Event.lockRelExclusive x) = 0 := by
  induction l with
  | nil => rfl
  | cons a l ih => simp [List.count_cons, ih]

theorem count_map_swap_unlock (l : List (Nat × Nat)) (x : Nat) :
    ((l.map fun p => Event.swapRelationFiles p.1 p.2)).count
      (Event.unlockRelExclusive x) = 0 := by
  induction l with
  | nil => rfl
  | cons a l ih => simp [List.count_cons, ih]

theorem sourceUntouched_map_lock (l : List Nat) :
    sourceUntouched (l.map Event.lockRelExclusive) = true := by
  simp [sourceUntouched, List.all_eq_true, Event.isSwapOrDrop]

theorem sourceUntouched_map_unlock (l : List Nat) :
    sourceUntouched (l.map Event.unlockRelExclusive) = true := by
  simp [sourceUntouched, List.all_eq_true, Event.isSwapOrDrop]

/-- A final-merge attempt performs no swap and no drop. -/
theorem perform_final_merge_untouched (r : Nat) (inds : List Nat)
    (maxT : Nat) (cs : CatalogState) (cr : CatalogRead) (d : Bool) :
    sourceUntouched (perform_final_merge r inds maxT cs cr d).1 = true := by
  unfold perform_final_merge
  cases hc : check_catalog_changes cs .noLock cr with
  | error e =>
    simp [sourceUntouched, Event.isSwapOrDrop, List.all_append, hc,
      List.all_eq_true]
  | ok u =>
    simp only [hc]
    split_ifs <;>
      simp [sourceUntouched, Event.isSwapOrDrop, List.all_append,
        List.all_eq_true]

/-- The final-merge retry loop performs no swap and no drop. -/
theorem final_merge_attempts_untouched (r : Nat) (inds : List Nat)
    (maxT : Nat) (cs : CatalogState) (reads : List CatalogRead)
    (drains : List Bool) (i fuel : Nat) :
    sourceUntouched
      (final_merge_attempts r inds maxT cs reads drains i fuel).1 = true := by
  induction fuel generalizing i with
  | zero => rfl
  | succ n ih =>
    unfold final_merge_attempts
    have hu := perform_final_merge_untouched r inds maxT cs
      (reads.getD i default) (drains.getD i false)
    rcases hp : perform_final_merge r inds maxT cs (reads.getD i default)
        (drains.getD i false) with ⟨t, res⟩
    rw [hp] at hu
    rcases res with e | b
    · simpa using hu
    · cases b
      · have := ih (i + 1)
        simp only [sourceUntouched, List.all_append] at hu this ⊢
        simp [hu, this, sourceUntouched]
      · simpa using hu

/-- A timed-out final-merge attempt: the catalog check passed, the bounded
drain did not finish, so the locks are all released (indexes first, then
the relation) and only then the rest is drained without a deadline. -/
theorem perform_final_merge_timeout (r : Nat) (inds : List Nat) (maxT : Nat)
    (cs : CatalogState) (cr : CatalogRead) (hmax : 0 < maxT)
    (hcat : check_catalog_changes cs .noLock cr = .ok ()) :
    perform_final_merge r inds maxT cs cr false =
      (Event.lockRelExclusive r :: inds.map Event.lockRelExclusive ++
         [.checkCatalog .noLock, .xlogFlush, .processChanges true] ++
         inds.map Event.unlockRelExclusive ++
         [.unlockRelExclusive r, .processChanges false],
       .ok false) := by
  unfold perform_final_merge
  simp [hcat, hmax, List.append_assoc]

/-- When every bounded drain times out (and the catalog never changes), the
whole retry loop reports failure. -/
theorem final_merge_attempts_all_timeout (r : Nat) (inds : List Nat)
    (maxT : Nat) (cs : CatalogState) (reads : List CatalogRead)
    (drains : List Bool) (i fuel : Nat) (hmax : 0 < maxT)
    (hdr : ∀ j, j < i + fuel → drains.getD j false = false)
    (hcat : ∀ j, j < i + fuel →
      check_catalog_changes cs .noLock (reads.getD j default) = .ok ()) :
    (final_merge_attempts r inds maxT cs reads drains i fuel).2 =
      .ok false := by
  induction fuel generalizing i with
  | zero => rfl
  | succ n ih =>
    unfold final_merge_attempts
    rw [hdr i (by omega), perform_final_merge_timeout r inds maxT cs
      (reads.getD i default) hmax (hcat i (by omega))]
    simpa using ih (i + 1) (fun j hj => hdr j (by omega))
      (fun j hj => hcat j (by omega))

theorem sourceUntouched_nil : sourceUntouched [] = true := rfl

theorem sourceUntouched_cons (e : Event) (l : List Event) :
    sourceUntouched (e :: l) = (!e.isSwapOrDrop && sourceUntouched l) := by
  simp [sourceUntouched]

theorem sourceUntouched_append (a b : List Event) :
    sourceUntouched (a ++ b) = (sourceUntouched a && sourceUntouched b) := by
  simp [sourceUntouched, List.all_append]

/-- Any run of `squeeze_table` that does not end in success leaves the
source table untouched: no storage swap and no drop happens on an error
path. -/
theorem squeeze_table_error_untouched (inp : SqueezeInput)
    (h : (squeeze_table inp).2 ≠ .ok ()) :
    sourceUntouched (squeeze_table inp).1 = true := by
  rcases hsq : squeeze_table inp with ⟨t, r⟩
  rw [hsq] at h
  dsimp only at h ⊢
  simp only [squeeze_table] at hsq
  repeat' split at hsq
  all_goals simp only [Prod.mk.injEq] at hsq
  all_goals obtain ⟨ht, hr⟩ := hsq
  all_goals subst ht
  all_goals first
    | exact absurd hr.symm h
    | simp [sourceUntouched_append, sourceUntouched_cons, sourceUntouched_nil,
        Event.isSwapOrDrop, final_merge_attempts_untouched]

/-- When a positive lock budget is configured and every bounded drain times
out (while the catalog stays unchanged), the rebuild never succeeds. -/
theorem squeeze_table_timeout_fails (inp : SqueezeInput)
    (hmax : 0 < inp.maxXlockTime)
    (hdr : ∀ j, j < 4 → inp.drainOks.getD j false = false)
    (hcat : ∀ j, j < 4 → check_catalog_changes inp.catState .noLock
      (inp.mergeCatReads.getD j default) = .ok ()) :
    (squeeze_table inp).2 ≠ .ok () := by
  rcases hsq : squeeze_table inp with ⟨t, r⟩
  dsimp only
  simp only [squeeze_table] at hsq
  repeat' split at hsq
  all_goals simp only [Prod.mk.injEq] at hsq
  all_goals obtain ⟨ht, hr⟩ := hsq
  all_goals rw [← hr]
  all_goals try simp
  all_goals
    exfalso
    have hX := final_merge_attempts_all_timeout inp.rel.relid
      (inp.catState.indexes.map (fun ic => ic.oid)) inp.maxXlockTime
      inp.catState inp.mergeCatReads inp.drainOks 0 4 hmax hdr hcat
    simp_all

/-! ## C2 — final-merge timeout: release the locks, then drain -/

/-- **C2 counterexample**: in a timed-out final-merge attempt the
coordinator releases the exclusive locks (index, then table) *before* it
drains the partially-read batch without a deadline — the claimed order
(drain first, then release) does not hold: the deadline-free
`processChanges` event does not precede the unlock of the source
relation. -/
theorem C2_counterexample :
    (perform_final_merge 20000 [20001] 100 sampleCatState sampleCatRead
        false).2 = .ok false ∧
    (perform_final_merge 20000 [20001] 100 sampleCatState sampleCatRead
        false).1 =
      [.lockRelExclusive 20000, .lockRelExclusive 20001,
       .checkCatalog .noLock, .xlogFlush, .processChanges true,
       .unlockRelExclusive 20001, .unlockRelExclusive 20000,
       .processChanges false] ∧
    ¬ ((perform_final_merge 20000 [20001] 100 sampleCatState sampleCatRead
          false).1.indexOf (Event.processChanges false) <
       (perform_final_merge 20000 [20001] 100 sampleCatState sampleCatRead
          false).1.indexOf (Event.unlockRelExclusive 20000)) := by
  decide

/-- **C2 amended**: when the deadline is exceeded, the coordinator first
releases all exclusive locks (every index, then the source relation), then
drains the partially-read batch without a deadline, and returns failure;
with every attempt timing out the retry loop (4 attempts) reports failure,
the rebuild as a whole does not succeed, and every unsuccessful run leaves
the source table completely untouched (no swap, no drop). -/
theorem C2_timeout_release_then_drain :
    (∀ (r : Nat) (inds : List Nat) (maxT : Nat) (cs : CatalogState)
       (cr : CatalogRead), 0 < maxT →
       check_catalog_changes cs .noLock cr = .ok () →
       perform_final_merge r inds maxT cs cr false =
         (Event.lockRelExclusive r :: inds.map Event.lockRelExclusive ++
            [.checkCatalog .noLock, .xlogFlush, .processChanges true] ++
            inds.map Event.unlockRelExclusive ++
            [.unlockRelExclusive r, .processChanges false],
          .ok false)) ∧
    (∀ (r : Nat) (inds : List Nat) (maxT : Nat) (cs : CatalogState)
       (reads : List CatalogRead) (drains : List Bool) (i fuel : Nat),
       0 < maxT →
       (∀ j, j < i + fuel → drains.getD j false = false) →
       (∀ j, j < i + fuel →
         check_catalog_changes cs .noLock (reads.getD j default) = .ok ()) →
       (final_merge_attempts r inds maxT cs reads drains i fuel).2 =
         .ok false) ∧
    (∀ inp : SqueezeInput, 0 < inp.maxXlockTime →
       (∀ j, j < 4 → inp.drainOks.getD j false = false) →
       (∀ j, j < 4 → check_catalog_changes inp.catState .noLock
         (inp.mergeCatReads.getD j default) = .ok ()) →
       (squeeze_table inp).2 ≠ .ok ()) ∧
    (∀ inp : SqueezeInput, (squeeze_table inp).2 ≠ .ok () →
       sourceUntouched (squeeze_table inp).1 = true) :=
  ⟨perform_final_merge_timeout, final_merge_attempts_all_timeout,
   squeeze_table_timeout_fails, squeeze_table_error_untouched⟩

/-- Witness for C2's amended theorem: every drain of a run with a 100 ms
budget times out; the rebuild fails and the source is untouched. -/
theorem C2_timeout_release_then_drain_witness :
    ((0 : Nat) < 100 ∧
     check_catalog_changes sampleCatState .noLock sampleCatRead = .ok () ∧
     perform_final_merge 20000 [20001] 100 sampleCatState sampleCatRead
         false =
       (Event.lockRelExclusive 20000 ::
          [20001].map Event.lockRelExclusive ++
          [.checkCatalog .noLock, .xlogFlush, .processChanges true] ++
          [20001].map Event.unlockRelExclusive ++
          [.unlockRelExclusive 20000, .processChanges false],
        .ok false)) ∧
    ((squeeze_table timeoutInput).2 ≠ .ok () ∧
     sourceUntouched (squeeze_table timeoutInput).1 = true) :=
  ⟨⟨by decide, by decide,
    C2_timeout_release_then_drain.1 20000 [20001] 100 sampleCatState
      sampleCatRead (by decide) (by decide)⟩,
   C2_timeout_release_then_drain.2.2.1 _ (by decide)
     (fun j _ => by simp [timeoutInput]) (fun j hj => by
       interval_cases j <;> decide),
   C2_timeout_release_then_drain.2.2.2 _
     (C2_timeout_release_then_drain.2.2.1 _ (by decide)
       (fun j _ => by simp [timeoutInput]) (fun j hj => by
         interval_cases j <;> decide))⟩

/-! ## Lock-balance lemmas for the final-merge traces -/

/-- A failed (timed-out) attempt acquires and releases the same exclusive
locks: its trace is balanced for every relation. -/
theorem perform_final_merge_fail_balance (r : Nat) (inds : List Nat)
    (maxT : Nat) (cs : CatalogState) (cr : CatalogRead) (d : Bool) (x : Nat)
    (h : (perform_final_merge r inds maxT cs cr d).2 = .ok false) :
    (perform_final_merge r inds maxT cs cr d).1.count
        (Event.lockRelExclusive x) =
      (perform_final_merge r inds maxT cs cr d).1.count
        (Event.unlockRelExclusive x) := by
  unfold perform_final_merge at h ⊢
  cases hc : check_catalog_changes cs .noLock cr with
  | error e => rw [hc] at h; simp at h
  | ok u =>
    rw [hc] at h
    dsimp only at h ⊢
    by_cases hcond : (!decide (0 < maxT) || d) = true
    · rw [if_pos hcond] at h
      simp at h
    · rw [if_neg hcond]
      simp [List.count_append, List.count_cons, count_map_lock_lock,
        count_map_lock_unlock, count_map_unlock_unlock, count_map_unlock_lock]

/-- A successful attempt releases nothing and holds the exclusive lock on
the source relation when it returns. -/
theorem perform_final_merge_success_locks (r : Nat) (inds : List Nat)
    (maxT : Nat) (cs : CatalogState) (cr : CatalogRead) (d : Bool) (x : Nat)
    (h : (perform_final_merge r inds maxT cs cr d).2 = .ok true) :
    (perform_final_merge r inds maxT cs cr d).1.count
        (Event.unlockRelExclusive x) = 0 ∧
    0 < (perform_final_merge r inds maxT cs cr d).1.count
        (Event.lockRelExclusive r) := by
  unfold perform_final_merge at h ⊢
  cases hc : check_catalog_changes cs .noLock cr with
  | error e => rw [hc] at h; simp at h
  | ok u =>
    rw [hc] at h
    dsimp only at h ⊢
    by_cases hcond : (!decide (0 < maxT) || d) = true
    · rw [if_pos hcond]
      simp [List.count_append, List.count_cons, count_map_lock_lock,
        count_map_lock_unlock, count_map_unlock_unlock, count_map_unlock_lock]
    · rw [if_neg hcond] at h
      simp at h

/-- When the retry loop reports success, its whole trace holds the
exclusive lock on the source: strictly more acquisitions than releases
(failed attempts are balanced, the successful one releases nothing). -/
theorem final_merge_attempts_success_locks (r : Nat) (inds : List Nat)
    (maxT : Nat) (cs : CatalogState) (reads : List CatalogRead)
    (drains : List Bool) :
    ∀ fuel i,
      (final_merge_attempts r inds maxT cs reads drains i fuel).2 =
        .ok true →
      (final_merge_attempts r inds maxT cs reads drains i fuel).1.count
          (Event.unlockRelExclusive r) <
        (final_merge_attempts r inds maxT cs reads drains i fuel).1.count
          (Event.lockRelExclusive r) := by
  intro fuel
  induction fuel with
  | zero => intro i h; simp [final_merge_attempts] at h
  | succ n ih =>
    intro i h
    unfold final_merge_attempts at h ⊢
    rcases hp : perform_final_merge r inds maxT cs (reads.getD i default)
        (drains.getD i false) with ⟨t1, res1⟩
    rw [hp] at h
    cases res1 with
    | error e => simp at h
    | ok b =>
      cases b with
      | true =>
        have hs := perform_final_merge_success_locks r inds maxT cs
          (reads.getD i default) (drains.getD i false) r (by rw [hp])
        rw [hp] at hs
        dsimp only at hs ⊢
        omega
      | false =>
        dsimp only at h ⊢
        have hb := perform_final_merge_fail_balance r inds maxT cs
          (reads.getD i default) (drains.getD i false) r (by rw [hp])
        rw [hp] at hb
        dsimp only at hb
        have hrest := ih (i + 1) h
        simp only [List.count_append]
        omega

/-! ## Lemmas about the index-to-tablespace mapping loop -/

/-- If some remaining entry resolves to an index oid already in the
accumulated mappings, the loop fails. -/
theorem resolve_loop_err_of_mem_acc (inds : List IndexCatInfo)
    (tss : List (String × Nat)) :
    ∀ (ms : List (String × String)) (acc : List (Nat × Nat)) (o : Nat),
      (∃ p ∈ ms, findIndexOid inds p.1 = some o) →
      acc.any (fun q => decide (q.1 = o)) = true →
      ∃ e, resolve_mappings_loop inds tss acc ms = .error e := by
  intro ms
  induction ms with
  | nil =>
    intro acc o h _
    rcases h with ⟨p, hp, _⟩
    simp at hp
  | cons m rest ih =>
    intro acc o h hacc
    obtain ⟨n, t⟩ := m
    unfold resolve_mappings_loop
    cases hf : findIndexOid inds n with
    | none => exact ⟨_, rfl⟩
    | some o₁ =>
      dsimp only
      by_cases hd : (acc.any fun p => decide (p.1 = o₁)) = true
      · rw [if_pos hd]
        exact ⟨_, rfl⟩
      · rw [if_neg hd]
        cases hts : get_tablespace_oid tss t with
        | error e => exact ⟨_, rfl⟩
        | ok tb =>
          rcases h with ⟨p, hp, hfind⟩
          rcases List.mem_cons.mp hp with hp | hp
          · -- the head itself resolves to o, but then o = o₁ and the
            -- duplicate check would have fired
            exfalso
            subst hp
            rw [hf] at hfind
            injection hfind with hfind
            subst hfind
            exact hd hacc
          · refine ih (acc ++ [(o₁, tb)]) o ⟨p, hp, hfind⟩ ?_
            simp [List.any_append, hacc]

/-- If some entry names an index the table does not have, the loop
fails. -/
theorem resolve_loop_err_of_unknown (inds : List IndexCatInfo)
    (tss : List (String × Nat)) :
    ∀ (ms : List (String × String)) (acc : List (Nat × Nat)),
      (∃ p ∈ ms, findIndexOid inds p.1 = none) →
      ∃ e, resolve_mappings_loop inds tss acc ms = .error e := by
  intro ms
  induction ms with
  | nil =>
    intro acc h
    rcases h with ⟨p, hp, _⟩
    simp at hp
  | cons m rest ih =>
    intro acc h
    obtain ⟨n, t⟩ := m
    unfold resolve_mappings_loop
    cases hf : findIndexOid inds n with
    | none => exact ⟨_, rfl⟩
    | some o₁ =>
      dsimp only
      by_cases hd : (acc.any fun p => decide (p.1 = o₁)) = true
      · rw [if_pos hd]
        exact ⟨_, rfl⟩
      · rw [if_neg hd]
        cases hts : get_tablespace_oid tss t with
        | error e => exact ⟨_, rfl⟩
        | ok tb =>
          rcases h with ⟨p, hp, hfind⟩
          rcases List.mem_cons.mp hp with hp | hp
          · exfalso
            subst hp
            rw [hf] at hfind
            exact Option.noConfusion hfind
          · exact ih (acc ++ [(o₁, tb)]) ⟨p, hp, hfind⟩

/-- If two distinct entries resolve to the same index oid, the loop
fails. -/
theorem resolve_loop_err_of_dup (inds : List IndexCatInfo)
    (tss : List (String × Nat)) :
    ∀ (ms : List (String × String)) (acc : List (Nat × Nat))
      (i j : Nat) (n₁ t₁ n₂ t₂ : String) (o : Nat), i < j →
      ms.get? i = some (n₁, t₁) → ms.get? j = some (n₂, t₂) →
      findIndexOid inds n₁ = some o → findIndexOid inds n₂ = some o →
      ∃ e, resolve_mappings_loop inds tss acc ms = .error e := by
  intro ms
  induction ms with
  | nil =>
    intro acc i j n₁ t₁ n₂ t₂ o _ hi _ _ _
    simp at hi
  | cons m rest ih =>
    intro acc i j n₁ t₁ n₂ t₂ o hij hi hj hf₁ hf₂
    obtain ⟨n, t⟩ := m
    unfold resolve_mappings_loop
    cases hf : findIndexOid inds n with
    | none => exact ⟨_, rfl⟩
    | some o₁ =>
      dsimp only
      by_cases hd : (acc.any fun p => decide (p.1 = o₁)) = true
      · rw [if_pos hd]
        exact ⟨_, rfl⟩
      · rw [if_neg hd]
        cases hts : get_tablespace_oid tss t with
        | error e => exact ⟨_, rfl⟩
        | ok tb =>
          cases i with
          | zero =>
            rw [List.get?_cons_zero] at hi
            injection hi with hi
            have hn : n = n₁ := congrArg Prod.fst hi
            cases j with
            | zero => omega
            | succ jj =>
              rw [List.get?_cons_succ] at hj
              refine resolve_loop_err_of_mem_acc inds tss rest
                (acc ++ [(o₁, tb)]) o ⟨(n₂, t₂), List.get?_mem hj, hf₂⟩ ?_
              have ho : o₁ = o := by
                rw [hn] at hf
                rw [hf] at hf₁
                exact Option.some.inj hf₁
              simp [List.any_append, ho]
          | succ ii =>
            cases j with
            | zero => omega
            | succ jj =>
              rw [List.get?_cons_succ] at hi hj
              exact ih (acc ++ [(o₁, tb)]) ii jj n₁ t₁ n₂ t₂ o
                (by omega) hi hj hf₁ hf₂

/-- A run whose mapping argument fails validation never succeeds and never
opens the capture session or creates the transient table. -/
theorem squeeze_table_bad_mapping (inp : SqueezeInput) (shape : ArrayShape)
    (ms : List (String × String)) (e : SqueezeError)
    (hm : inp.mappingsArg = some (shape, ms))
    (hres : resolve_index_tablepaces shape inp.catState.indexes
      inp.tablespaces ms = .error e) :
    (squeeze_table inp).2 ≠ .ok () ∧
    noCaptureOrCopy (squeeze_table inp).1 = true := by
  rcases hsq : squeeze_table inp with ⟨t, r⟩
  dsimp only
  simp only [squeeze_table] at hsq
  repeat' split at hsq
  all_goals simp only [Prod.mk.injEq] at hsq
  all_goals obtain ⟨ht, hr⟩ := hsq
  all_goals subst ht
  all_goals rw [← hr]
  all_goals clear hr
  all_goals first
    | (refine ⟨?_, ?_⟩ <;> (simp [noCaptureOrCopy, Event.isCaptureOrCopy]; done))
    | (exfalso; simp_all)

/-! ## C8 — mapping validation before any heavy work -/

/-- **C8**: index-to-tablespace mappings are validated before any heavy
work — a run whose mappings fail validation errors out without opening the
capture session, without creating the transient table and without loading
anything; and the validation fails whenever a mapping names an index the
table does not have, or two mappings resolve to the same index. -/
theorem C8_mapping_validation :
    (∀ (inp : SqueezeInput) (shape : ArrayShape)
       (ms : List (String × String)) (e : SqueezeError),
       inp.mappingsArg = some (shape, ms) →
       resolve_index_tablepaces shape inp.catState.indexes inp.tablespaces ms
         = .error e →
       (squeeze_table inp).2 ≠ .ok () ∧
       noCaptureOrCopy (squeeze_table inp).1 = true) ∧
    (∀ (shape : ArrayShape) (inds : List IndexCatInfo)
       (tss : List (String × Nat)) (ms : List (String × String))
       (p : String × String), p ∈ ms → findIndexOid inds p.1 = none →
       ∃ e, resolve_index_tablepaces shape inds tss ms = .error e) ∧
    (∀ (shape : ArrayShape) (inds : List IndexCatInfo)
       (tss : List (String × Nat)) (ms : List (String × String))
       (i j : Nat) (n₁ t₁ n₂ t₂ : String) (o : Nat),
       i < j → ms.get? i = some (n₁, t₁) → ms.get? j = some (n₂, t₂) →
       findIndexOid inds n₁ = some o → findIndexOid inds n₂ = some o →
       ∃ e, resolve_index_tablepaces shape inds tss ms = .error e) := by
  refine ⟨squeeze_table_bad_mapping, ?_, ?_⟩
  · intro shape inds tss ms p hp hfind
    unfold resolve_index_tablepaces
    cases hs : check_mapping_array_shape shape with
    | error e => exact ⟨_, rfl⟩
    | ok u => exact resolve_loop_err_of_unknown inds tss ms [] ⟨p, hp, hfind⟩
  · intro shape inds tss ms i j n₁ t₁ n₂ t₂ o hij hi hj hf₁ hf₂
    unfold resolve_index_tablepaces
    cases hs : check_mapping_array_shape shape with
    | error e => exact ⟨_, rfl⟩
    | ok u =>
      exact resolve_loop_err_of_dup inds tss ms [] i j n₁ t₁ n₂ t₂ o hij hi
        hj hf₁ hf₂

/-- Witness for C8: an unknown-index mapping and a duplicate mapping. -/
theorem C8_mapping_validation_witness :
    (unknownIndexMappingInput.mappingsArg =
       some (sampleShape, [("no_such_index", "ts1")]) ∧
     resolve_index_tablepaces sampleShape
         unknownIndexMappingInput.catState.indexes
         unknownIndexMappingInput.tablespaces [("no_such_index", "ts1")] =
       .error (.invalidParameterValue "Table has no index") ∧
     ((squeeze_table unknownIndexMappingInput).2 ≠ .ok () ∧
      noCaptureOrCopy (squeeze_table unknownIndexMappingInput).1 = true)) ∧
    ((("no_such_index", "ts1") ∈ [("no_such_index", "ts1")] ∧
      findIndexOid [sampleIndex] "no_such_index" = none ∧
      (∃ e, resolve_index_tablepaces sampleShape [sampleIndex]
         [("ts1", 30001)] [("no_such_index", "ts1")] = .error e)) ∧
     ((0 : Nat) < 1 ∧
      ([("t_pkey", "ts1"), ("t_pkey", "ts1")] :
        List (String × String)).get? 0 = some ("t_pkey", "ts1") ∧
      ([("t_pkey", "ts1"), ("t_pkey", "ts1")] :
        List (String × String)).get? 1 = some ("t_pkey", "ts1") ∧
      findIndexOid [sampleIndex] "t_pkey" = some 20001 ∧
      (∃ e, resolve_index_tablepaces sampleShape [sampleIndex]
         [("ts1", 30001)] [("t_pkey", "ts1"), ("t_pkey", "ts1")] =
           .error e))) :=
  ⟨⟨rfl, by decide,
    C8_mapping_validation.1 unknownIndexMappingInput sampleShape
      [("no_such_index", "ts1")]
      (.invalidParameterValue "Table has no index") rfl (by decide)⟩,
   ⟨by decide, by decide,
    C8_mapping_validation.2.1 sampleShape [sampleIndex] [("ts1", 30001)]
      [("no_such_index", "ts1")] ("no_such_index", "ts1") (by decide)
      (by decide)⟩,
   ⟨by decide, by decide, by decide, by decide,
    C8_mapping_validation.2.2 sampleShape [sampleIndex] [("ts1", 30001)]
      [("t_pkey", "ts1"), ("t_pkey", "ts1")] 0 1 "t_pkey" "ts1" "t_pkey"
      "ts1" 20001 (by decide) (by decide) (by decide) (by decide)
      (by decide)⟩⟩

/-! ## C7 — the transient shell is dropped after the swap, but inside the
exclusive-lock window -/

/-- **C7 counterexample**: in a successful run the drop of the transient
shell does come after the storage swap, but it does *not* happen outside
the exclusive-lock window: no unlock of the source relation ever occurs
(the `AccessExclusiveLock` taken by `perform_final_merge` is held until
transaction end, after `squeeze_table` returns), so the lock is still held
at the moment of the drop. -/
theorem C7_counterexample :
    (squeeze_table sampleInput).2 = .ok () ∧
    ((squeeze_table sampleInput).1.indexOf
        (Event.swapRelationFiles 20000 21000) <
      (squeeze_table sampleInput).1.indexOf (Event.dropRel 21000)) ∧
    exclusiveHeld
      ((squeeze_table sampleInput).1.takeWhile
        (fun e => !(e == Event.dropRel 21000))) 20000 = true := by
  decide

/-- **C7 amended**: in every successful run the transient shell is dropped
last, after the storage swap of the source relation, and at that point the
exclusive lock on the source relation is still held (more acquisitions
than releases in the preceding trace) — the drop happens *inside* the
exclusive-lock window, which only ends with the transaction. -/
theorem C7_drop_after_swap_lock_held (inp : SqueezeInput)
    (h : (squeeze_table inp).2 = .ok ()) :
    ∃ pre, (squeeze_table inp).1 = pre ++ [Event.dropRel inp.relidDst] ∧
      Event.swapRelationFiles inp.rel.relid inp.relidDst ∈ pre ∧
      exclusiveHeld pre inp.rel.relid = true := by
  rcases hsq : squeeze_table inp with ⟨t, r⟩
  rw [hsq] at h
  dsimp only at h ⊢
  simp only [squeeze_table] at hsq
  repeat' split at hsq
  all_goals simp only [Prod.mk.injEq] at hsq
  all_goals obtain ⟨ht, hr⟩ := hsq
  all_goals try (rw [← hr] at h; exact Except.noConfusion h)
  -- only the success branch survives
  rename_i hmerge
  subst ht
  refine ⟨_, rfl, ?_, ?_⟩
  · simp [List.mem_append]
  · have hlk := final_merge_attempts_success_locks inp.rel.relid
      (List.map (fun ic => ic.oid) inp.catState.indexes) inp.maxXlockTime
      inp.catState inp.mergeCatReads inp.drainOks 4 0 hmerge
    simp [exclusiveHeld, List.count_append, List.count_cons,
      count_map_swap_lock, count_map_swap_unlock]
    omega

/-- Witness for C7's amended theorem on the all-goes-well run. -/
theorem C7_drop_after_swap_lock_held_witness :
    (squeeze_table sampleInput).2 = .ok () ∧
    (∃ pre, (squeeze_table sampleInput).1 =
        pre ++ [Event.dropRel sampleInput.relidDst] ∧
      Event.swapRelationFiles sampleInput.rel.relid sampleInput.relidDst ∈
        pre ∧
      exclusiveHeld pre sampleInput.rel.relid = true) :=
  ⟨by decide, C7_drop_after_swap_lock_held sampleInput (by decide)⟩

/-! ## C4 — identity checks happen before capture and copy (with one
exception) -/

/-- **C4 counterexample**: a table with replica identity `USING INDEX`
whose designated index has disappeared (so `RelationGetReplicaIndex`
returns `InvalidOid`) has no usable row-identity index, yet the rebuild is
*not* rejected upfront: the upfront checks at src/pg_squeeze.c:366-377
only cover `NOTHING`, `DEFAULT`-without-index and `FULL`, so the run opens
the capture session and performs the initial load before failing (at
`build_identity_key`, which cannot open the invalid index oid). -/
theorem C4_counterexample :
    (squeeze_table replicaIdentityIndexGoneInput).2 =
      .error (.internalError "could not open relation") ∧
    OidIsValid replicaIdentityIndexGoneInput.identIdxSrc = false ∧
    noCaptureOrCopy (squeeze_table replicaIdentityIndexGoneInput).1 =
      false := by
  decide

/-- **C4 amended**: a table whose replica identity is NOTHING, or DEFAULT
without an identity index, fails upfront — before any capture or copying
starts; replica identity FULL is rejected outright in every case, likewise
before any capture or copying.  (A table with replica identity USING INDEX
whose index has vanished is only caught after the initial load — see the
counterexample.) -/
theorem C4_identity_checks_upfront (inp : SqueezeInput)
    (h : inp.replident = REPLICA_IDENTITY_FULL ∨
         inp.replident = REPLICA_IDENTITY_NOTHING ∨
         (inp.replident = REPLICA_IDENTITY_DEFAULT ∧
          OidIsValid inp.identIdxSrc = false)) :
    (squeeze_table inp).2 ≠ .ok () ∧
    noCaptureOrCopy (squeeze_table inp).1 = true := by
  rcases hsq : squeeze_table inp with ⟨t, r⟩
  dsimp only
  simp only [squeeze_table] at hsq
  repeat' split at hsq
  all_goals simp only [Prod.mk.injEq] at hsq
  all_goals obtain ⟨ht, hr⟩ := hsq
  all_goals subst ht
  all_goals rw [← hr]
  all_goals first
    | (refine ⟨?_, ?_⟩ <;> (simp [noCaptureOrCopy, Event.isCaptureOrCopy]; done))
    | tauto

/-- Witness for C4's amended theorem: replica identity FULL. -/
theorem C4_identity_checks_upfront_witness :
    (fullIdentityInput.replident = REPLICA_IDENTITY_FULL ∨
     fullIdentityInput.replident = REPLICA_IDENTITY_NOTHING ∨
     (fullIdentityInput.replident = REPLICA_IDENTITY_DEFAULT ∧
      OidIsValid fullIdentityInput.identIdxSrc = false)) ∧
    ((squeeze_table fullIdentityInput).2 ≠ .ok () ∧
     noCaptureOrCopy (squeeze_table fullIdentityInput).1 = true) :=
  ⟨Or.inl rfl, C4_identity_checks_upfront fullIdentityInput (Or.inl rfl)⟩

/-! ## C6 — watermarks carried forward by the storage swap -/

/-- **C6**: a successful storage swap of a non-index relation exchanges the
storage identifiers and sets the surviving row's frozen-xid and
minimum-multixact watermarks to the fresh values computed at swap time;
the new values never precede the transient relation's previous values. -/
theorem C6_swap_watermarks (r1 r2 r1' r2' : PgClassRow)
    (recentXmin oldestMulti : Nat)
    (hkind : r1.relkind ≠ RELKIND_INDEX)
    (h : swap_relation_files r1 r2 recentXmin oldestMulti = .ok (r1', r2')) :
    r1'.relfrozenxid = recentXmin ∧
    r1'.relminmxid = oldestMulti ∧
    TransactionIdPrecedes r1'.relfrozenxid r2.relfrozenxid = false ∧
    MultiXactIdPrecedes r1'.relminmxid r2.relminmxid = false ∧
    r1'.relfilenode = r2.relfilenode ∧
    r2'.relfilenode = r1.relfilenode := by
  simp only [swap_relation_files] at h
  split_ifs at h with hv hp hk hn hx hm
  simp only [Except.ok.injEq, Prod.mk.injEq] at h
  obtain ⟨h1, h2⟩ := h
  subst h1; subst h2
  refine ⟨rfl, rfl, ?_, ?_, rfl, rfl⟩
  · simpa using hn
  · simpa using hm

/-- Witness for C6 at concrete `pg_class` rows. -/
theorem C6_swap_watermarks_witness :
    (⟨100, 0, 'p', 0, 'r', 500, 1, 3⟩ : PgClassRow).relkind ≠ RELKIND_INDEX ∧
    swap_relation_files ⟨100, 0, 'p', 0, 'r', 500, 1, 3⟩
        ⟨200, 0, 'p', 0, 'r', 600, 2, 0⟩ 700 5 =
      .ok (⟨200, 0, 'p', 0, 'r', 700, 5, 0⟩,
           ⟨100, 0, 'p', 0, 'r', 600, 2, 0⟩) ∧
    ((⟨200, 0, 'p', 0, 'r', 700, 5, 0⟩ : PgClassRow).relfrozenxid = 700 ∧
     (⟨200, 0, 'p', 0, 'r', 700, 5, 0⟩ : PgClassRow).relminmxid = 5 ∧
     TransactionIdPrecedes
       (⟨200, 0, 'p', 0, 'r', 700, 5, 0⟩ : PgClassRow).relfrozenxid
       (⟨200, 0, 'p', 0, 'r', 600, 2, 0⟩ : PgClassRow).relfrozenxid = false ∧
     MultiXactIdPrecedes
       (⟨200, 0, 'p', 0, 'r', 700, 5, 0⟩ : PgClassRow).relminmxid
       (⟨200, 0, 'p', 0, 'r', 600, 2, 0⟩ : PgClassRow).relminmxid = false ∧
     (⟨200, 0, 'p', 0, 'r', 700, 5, 0⟩ : PgClassRow).relfilenode =
       (⟨200, 0, 'p', 0, 'r', 600, 2, 0⟩ : PgClassRow).relfilenode ∧
     (⟨100, 0, 'p', 0, 'r', 600, 2, 0⟩ : PgClassRow).relfilenode =
       (⟨100, 0, 'p', 0, 'r', 500, 1, 3⟩ : PgClassRow).relfilenode) :=
  ⟨by decide, by decide,
   C6_swap_watermarks _ _ _ _ 700 5 (by decide) (by decide)⟩

end PgSqueeze
